import Mathlib

/-!
# Verification of the detection rule engine

A shallow embedding of `src/backend/detection/rule_engine.py`: the runtime
value model, the `SafeEvaluator` AST walker, the whitelisted function
registry `FUNCS`, `eval_condition`, and `evaluate_rules`, together with
theorems settling the specification's claims about them.

Modelling conventions:
* Python numbers (`int` and `float`) are merged into `ℚ`; every numeric
  computation the engine performs on the inputs appearing in the theorems
  below is exact in both models.
* Python exceptions are values of `Except PyErr`; `PyErr` records the
  exception class and its message.
* A Python `set` is represented by its list of elements in first-occurrence
  order, without duplicates; every operation the engine applies to sets
  (cardinality, membership, intersection, union, difference) is independent
  of the order, so the unspecified iteration order of CPython sets is
  irrelevant.
-/

namespace RuleEngine

/-- A Python runtime value, closed under the operations the rule engine can
perform: constants (`None`, `bool`, numbers, strings), list literals and
set values. -/
inductive PyVal where
  | none
  | bool (b : Bool)
  | num (q : ℚ)
  | str (s : String)
  | list (xs : List PyVal)
  | set (xs : List PyVal)

/-- Python exception classes raised by the engine or by the builtins it
calls. -/
inductive PyExcType where
  | valueError
  | typeError
  | synError
  | indexError
deriving DecidableEq, Repr

/-- A raised Python exception: its class and its message (`str(e)`). -/
structure PyErr where
  ty : PyExcType
  msg : String
deriving DecidableEq, Repr

/-- The Python type name of a value, used in `TypeError` messages.  The
merged numeric type prints as `number`. -/
def typeName : PyVal → String
  | .none => "NoneType"
  | .bool _ => "bool"
  | .num _ => "number"
  | .str _ => "str"
  | .list _ => "list"
  | .set _ => "set"

/-- Python truthiness (`bool(v)`): `None`, `False`, zero, the empty string
and empty collections are falsy. -/
def truthy : PyVal → Bool
  | .none => false
  | .bool b => b
  | .num q => decide (q ≠ 0)
  | .str s => decide (s ≠ "")
  | .list xs => !xs.isEmpty
  | .set xs => !xs.isEmpty

/-- Whether a value may be an element of a Python set (lists and sets are
unhashable). -/
def hashable : PyVal → Bool
  | .list _ => false
  | .set _ => false
  | _ => true

mutual

/-- Structural size of a value, used as a fuel bound for the recursions
below that are not structural (Python set equality is mutual inclusion, so
it descends through element positions of both arguments at once). -/
def pySize : PyVal → Nat
  | .none => 1
  | .bool _ => 1
  | .num _ => 1
  | .str _ => 1
  | .list xs => 1 + pySizeList xs
  | .set xs => 1 + pySizeList xs

/-- Structural size of a list of values. -/
def pySizeList : List PyVal → Nat
  | [] => 1
  | x :: xs => 1 + pySize x + pySizeList xs

end

mutual

/-- Python `==` on two values, with structural fuel (first argument).
Python equality is not structural on sets, where it is mutual inclusion, so
the recursion descends through element positions of both arguments; the
fuel makes that recursion structural.  `pyEq` below instantiates the fuel
with a bound that can never be exhausted.  Python `bool` compares equal to
the corresponding number (`True == 1`). -/
def pyEqF : Nat → PyVal → PyVal → Bool
  | 0, _, _ => false
  | _ + 1, .none, .none => true
  | _ + 1, .bool a, .bool b => a == b
  | _ + 1, .bool a, .num q => decide ((if a then (1 : ℚ) else 0) = q)
  | _ + 1, .num q, .bool b => decide (q = (if b then (1 : ℚ) else 0))
  | _ + 1, .num a, .num b => decide (a = b)
  | _ + 1, .str a, .str b => a == b
  | f + 1, .list xs, .list ys => pyEqListF f xs ys
  | f + 1, .set xs, .set ys => pyInclF f xs ys && pyInclF f ys xs
  | _ + 1, _, _ => false

/-- Elementwise Python `==` on two lists (Python list equality). -/
def pyEqListF : Nat → List PyVal → List PyVal → Bool
  | 0, _, _ => false
  | _ + 1, [], [] => true
  | f + 1, x :: xs, y :: ys => pyEqF f x y && pyEqListF f xs ys
  | _ + 1, _, _ => false

/-- Python set inclusion: every element of the first list occurs (up to
`==`) in the second. -/
def pyInclF : Nat → List PyVal → List PyVal → Bool
  | 0, _, _ => false
  | _ + 1, [], _ => true
  | f + 1, x :: xs, ys => pyMemF f x ys && pyInclF f xs ys

/-- Python membership of a value in a list of values, up to `==`. -/
def pyMemF : Nat → PyVal → List PyVal → Bool
  | 0, _, _ => false
  | _ + 1, _, [] => false
  | f + 1, x, y :: ys => pyEqF f x y || pyMemF f x ys

end

/-- Python `==`.  The fuel `pySize a + pySize b` strictly exceeds the depth
of every recursion path of `pyEqF` (each step loses at least one unit of
combined size, and at least two units remain at every leaf comparison), so
the fuel-exhausted branch is never taken. -/
def pyEq (a b : PyVal) : Bool := pyEqF (pySize a + pySize b) a b

/-- Python `x in ys` for a list of set elements. -/
def pyMem (x : PyVal) (ys : List PyVal) : Bool := ys.any (fun y => pyEq x y)

/-- Add an element to a set representation unless an equal element is
already present (preserves first-occurrence order). -/
def dedupAdd (acc : List PyVal) (x : PyVal) : List PyVal :=
  if pyMem x acc then acc else acc ++ [x]

/-- Collect a list of already-computed values into a Python set, raising
`TypeError` on the first unhashable element, as `set(...)` does. -/
def toSetElems (xs : List PyVal) : Except PyErr (List PyVal) :=
  xs.foldlM
    (fun acc x =>
      if hashable x then Except.ok (dedupAdd acc x)
      else Except.error ⟨.typeError, "unhashable type: " ++ typeName x⟩)
    []

/-- Python `set(v)`: iterate `v` and collect the elements into a set.
Iterating a string yields its characters as one-character strings;
non-iterable values raise `TypeError`. -/
def toSet : PyVal → Except PyErr (List PyVal)
  | .list xs => toSetElems xs
  | .set xs => Except.ok xs
  | .str s => toSetElems (s.data.map (fun c => PyVal.str (String.mk [c])))
  | v => Except.error ⟨.typeError, typeName v ++ " object is not iterable"⟩

/-- Python `sa & sb` on set representations. -/
def setInter (sa sb : List PyVal) : List PyVal :=
  sa.filter (fun x => pyMem x sb)

/-- Python `sa | sb` on set representations. -/
def setUnion (sa sb : List PyVal) : List PyVal :=
  sa ++ sb.filter (fun y => !pyMem y sa)

/-- Python `sa - sb` on set representations. -/
def setDiff (sa sb : List PyVal) : List PyVal :=
  sa.filter (fun x => !pyMem x sb)

mutual

/-- Python `a < b`.  Numbers (and `bool`, which is a numeric type) compare
numerically, strings lexicographically, lists lexicographically via `==`
and `<` on elements, sets by strict inclusion; other combinations raise
`TypeError`. -/
def pyLt : PyVal → PyVal → Except PyErr Bool
  | .num a, .num b => Except.ok (decide (a < b))
  | .num a, .bool b => Except.ok (decide (a < if b then (1 : ℚ) else 0))
  | .bool a, .num b => Except.ok (decide ((if a then (1 : ℚ) else 0) < b))
  | .bool a, .bool b => Except.ok (!a && b)
  | .str a, .str b => Except.ok (decide (a < b))
  | .list xs, .list ys => pyLtList xs ys
  | .set xs, .set ys =>
    Except.ok (pyInclF (pySizeList xs + pySizeList ys) xs ys &&
      !pyInclF (pySizeList ys + pySizeList xs) ys xs)
  | a, b =>
    Except.error ⟨.typeError,
      "ordering not supported between instances of " ++ typeName a ++ " and " ++ typeName b⟩

/-- Lexicographic Python `<` on lists. -/
def pyLtList : List PyVal → List PyVal → Except PyErr Bool
  | [], [] => Except.ok false
  | [], _ :: _ => Except.ok true
  | _ :: _, [] => Except.ok false
  | x :: xs, y :: ys => if pyEq x y then pyLtList xs ys else pyLt x y

end

mutual

/-- Python `a <= b`, same type combinations as `pyLt`; on sets it is
inclusion. -/
def pyLe : PyVal → PyVal → Except PyErr Bool
  | .num a, .num b => Except.ok (decide (a ≤ b))
  | .num a, .bool b => Except.ok (decide (a ≤ if b then (1 : ℚ) else 0))
  | .bool a, .num b => Except.ok (decide ((if a then (1 : ℚ) else 0) ≤ b))
  | .bool a, .bool b => Except.ok (!a || b)
  | .str a, .str b => Except.ok (decide (a < b) || a == b)
  | .list xs, .list ys => pyLeList xs ys
  | .set xs, .set ys => Except.ok (pyInclF (pySizeList xs + pySizeList ys) xs ys)
  | a, b =>
    Except.error ⟨.typeError,
      "ordering not supported between instances of " ++ typeName a ++ " and " ++ typeName b⟩

/-- Lexicographic Python `<=` on lists. -/
def pyLeList : List PyVal → List PyVal → Except PyErr Bool
  | [], _ => Except.ok true
  | _ :: _, [] => Except.ok false
  | x :: xs, y :: ys => if pyEq x y then pyLeList xs ys else pyLt x y

end

/-!
## The function registry `FUNCS` (rule_engine.py lines 27-35)

Each whitelisted function takes the list of evaluated call arguments and
either returns a value or raises, as the corresponding Python callable
does. -/

/-- `FUNCS["jaccard_distance"]`:
`lambda a, b: 1 - (len(set(a) & set(b)) / (len(set(a) | set(b)) or 1))`.
The `or 1` guard replaces a zero denominator by `1`. -/
def jaccard_distance : List PyVal → Except PyErr PyVal
  | [a, b] => do
    let sa ← toSet a
    let sb ← toSet b
    Except.ok (.num (1 -
      (((setInter sa sb).length : ℚ) /
        (if (setUnion sa sb).length = 0 then (1 : ℚ) else ((setUnion sa sb).length : ℚ)))))
  | _ => Except.error ⟨.typeError, "jaccard_distance takes exactly 2 arguments"⟩

/-- `FUNCS["in_set"]`: `lambda x, s: x in set(s)`.  Membership of an
unhashable value in a set raises `TypeError`. -/
def in_set : List PyVal → Except PyErr PyVal
  | [x, s] => do
    let ss ← toSet s
    if hashable x then Except.ok (.bool (pyMem x ss))
    else Except.error ⟨.typeError, "unhashable type: " ++ typeName x⟩
  | _ => Except.error ⟨.typeError, "in_set takes exactly 2 arguments"⟩

/-- `FUNCS["not_in_set"]`: `lambda x, s: x not in set(s)`. -/
def not_in_set : List PyVal → Except PyErr PyVal
  | [x, s] => do
    let ss ← toSet s
    if hashable x then Except.ok (.bool (!pyMem x ss))
    else Except.error ⟨.typeError, "unhashable type: " ++ typeName x⟩
  | _ => Except.error ⟨.typeError, "not_in_set takes exactly 2 arguments"⟩

/-- `FUNCS["len"]`: `lambda x: len(x)` on strings, lists and sets. -/
def pyLen : List PyVal → Except PyErr PyVal
  | [.str s] => Except.ok (.num (s.length : ℚ))
  | [.list xs] => Except.ok (.num (xs.length : ℚ))
  | [.set xs] => Except.ok (.num (xs.length : ℚ))
  | [v] => Except.error ⟨.typeError, "object of type " ++ typeName v ++ " has no len"⟩
  | _ => Except.error ⟨.typeError, "len takes exactly one argument"⟩

/-- `FUNCS["abs"]`: the `abs` builtin on numbers (`bool` is numeric). -/
def pyAbs : List PyVal → Except PyErr PyVal
  | [.num q] => Except.ok (.num |q|)
  | [.bool b] => Except.ok (.num (if b then 1 else 0))
  | [v] => Except.error ⟨.typeError, "bad operand type for abs: " ++ typeName v⟩
  | _ => Except.error ⟨.typeError, "abs takes exactly one argument"⟩

/-- Iterate a value, as the `min`/`max` builtins do with a single
argument. -/
def iterElems : PyVal → Except PyErr (List PyVal)
  | .list xs => Except.ok xs
  | .set xs => Except.ok xs
  | .str s => Except.ok (s.data.map (fun c => PyVal.str (String.mk [c])))
  | v => Except.error ⟨.typeError, typeName v ++ " object is not iterable"⟩

/-- The scan of the `min` builtin: keep the current element when the next
one is not strictly smaller, so the earliest minimum wins. -/
def minFold : PyVal → List PyVal → Except PyErr PyVal
  | c, [] => Except.ok c
  | c, x :: xs => do
    let b ← pyLt x c
    minFold (if b then x else c) xs

/-- The scan of the `max` builtin: keep the current element when the next
one is not strictly greater, so the earliest maximum wins. -/
def maxFold : PyVal → List PyVal → Except PyErr PyVal
  | c, [] => Except.ok c
  | c, x :: xs => do
    let b ← pyLt c x
    maxFold (if b then x else c) xs

/-- `FUNCS["min"]`: the `min` builtin — one iterable argument or at least
two positional arguments. -/
def pyMin : List PyVal → Except PyErr PyVal
  | [] => Except.error ⟨.typeError, "min expected at least 1 argument, got 0"⟩
  | [x] => do
    let elems ← iterElems x
    match elems with
    | [] => Except.error ⟨.valueError, "min arg is an empty sequence"⟩
    | e :: es => minFold e es
  | x :: xs => minFold x xs

/-- `FUNCS["max"]`: the `max` builtin — one iterable argument or at least
two positional arguments. -/
def pyMax : List PyVal → Except PyErr PyVal
  | [] => Except.error ⟨.typeError, "max expected at least 1 argument, got 0"⟩
  | [x] => do
    let elems ← iterElems x
    match elems with
    | [] => Except.error ⟨.valueError, "max arg is an empty sequence"⟩
    | e :: es => maxFold e es
  | x :: xs => maxFold x xs

/-- The safe function registry `FUNCS` (rule_engine.py lines 27-35): the
seven whitelisted names and nothing else. -/
def FUNCS : String → Option (List PyVal → Except PyErr PyVal)
  | "jaccard_distance" => some jaccard_distance
  | "in_set" => some in_set
  | "not_in_set" => some not_in_set
  | "len" => some pyLen
  | "abs" => some pyAbs
  | "min" => some pyMin
  | "max" => some pyMax
  | _ => Option.none

/-!
## The expression AST and the `SafeEvaluator` walker
-/

/-- `ast.BoolOp` operators.  The Python grammar only produces `And` and
`Or`, so the defensive `raise` at rule_engine.py line 62 is unreachable and
the model has exactly these two. -/
inductive PyBoolOp where
  | and
  | or
deriving DecidableEq, Repr

/-- `ast.Compare` operators.  The first six are the whitelist
`SafeEvaluator.allowed_ops`; the remaining Python comparison operators are
representative members of its complement. -/
inductive PyCmpOp where
  | gt
  | ge
  | lt
  | le
  | eq
  | ne
  | isOp
  | isNotOp
  | inOp
  | notInOp
deriving DecidableEq, Repr

/-- Whether a comparison operator is a key of the `OPS` table in
`visit_Compare` (rule_engine.py lines 70-77). -/
def cmpAllowed : PyCmpOp → Bool
  | .gt => true
  | .ge => true
  | .lt => true
  | .le => true
  | .eq => true
  | .ne => true
  | _ => false

/-- `type(op).__name__` for comparison operators. -/
def cmpOpName : PyCmpOp → String
  | .gt => "Gt"
  | .ge => "GtE"
  | .lt => "Lt"
  | .le => "LtE"
  | .eq => "Eq"
  | .ne => "NotEq"
  | .isOp => "Is"
  | .isNotOp => "IsNot"
  | .inOp => "In"
  | .notInOp => "NotIn"

/-- `ast.BinOp` operators: `Sub` is the single whitelisted one; the others
are representative members of its complement. -/
inductive PyBinOp where
  | sub
  | add
  | mult
  | div
  | mod
deriving DecidableEq, Repr

/-- `type(op).__name__` for binary operators. -/
def binOpName : PyBinOp → String
  | .sub => "Sub"
  | .add => "Add"
  | .mult => "Mult"
  | .div => "Div"
  | .mod => "Mod"

/-- The body of a parsed condition: the eight expression node kinds the
spec whitelists, plus `attrAccess` (`ast.Attribute`, attribute access
`value.attr`) as a representative node kind outside the whitelist.
`call` keeps the full callee expression because `visit_Call` inspects
whether it is a plain name (rule_engine.py line 86). -/
inductive PyExpr where
  | boolOp (op : PyBoolOp) (values : List PyExpr)
  | compare (left : PyExpr) (ops : List PyCmpOp) (comparators : List PyExpr)
  | call (func : PyExpr) (args : List PyExpr)
  | name (id : String)
  | const (v : PyVal)
  | listLit (elts : List PyExpr)
  | setLit (elts : List PyExpr)
  | binOp (left : PyExpr) (op : PyBinOp) (right : PyExpr)
  | attrAccess (value : PyExpr) (attr : String)

/-- An event context: the variable bindings of the `SafeEvaluator`
(`self.context`), a string-keyed map. -/
def Ctx : Type := List (String × PyVal)

/-- Dictionary lookup in the context. -/
def lookupVar : Ctx → String → Option PyVal
  | [], _ => Option.none
  | (k, v) :: rest, x => if k = x then some v else lookupVar rest x

/-- Apply one whitelisted comparison operator (`OPS[type(op)](left, rights[0])`,
rule_engine.py line 82) via the `operator` module semantics: `gt`/`ge` are
the reflections of `lt`/`le`. -/
def pyCmp : PyCmpOp → PyVal → PyVal → Except PyErr PyVal
  | .eq, a, b => Except.ok (.bool (pyEq a b))
  | .ne, a, b => Except.ok (.bool (!pyEq a b))
  | .lt, a, b => do let r ← pyLt a b; Except.ok (.bool r)
  | .gt, a, b => do let r ← pyLt b a; Except.ok (.bool r)
  | .le, a, b => do let r ← pyLe a b; Except.ok (.bool r)
  | .ge, a, b => do let r ← pyLe b a; Except.ok (.bool r)
  | op, _, _ => Except.error ⟨.valueError, "Comparison operator not allowed: " ++ cmpOpName op⟩

mutual

/-- `SafeEvaluator.visit` on an expression node, dispatching exactly as the
`visit_*` methods of rule_engine.py lines 55-121 do.  `ast.Attribute` has
no `visit_Attribute` method, so `NodeVisitor.generic_visit` visits the
child expression, discards its value and returns `None`. -/
def visit (ctx : Ctx) : PyExpr → Except PyErr PyVal
  | .boolOp op vs => do
    let vals ← visitList ctx vs
    match op with
    | .and => Except.ok (.bool (vals.all truthy))
    | .or => Except.ok (.bool (vals.any truthy))
  | .compare left ops comparators => do
    let lv ← visit ctx left
    let rvs ← visitList ctx comparators
    match ops with
    | [] => Except.error ⟨.indexError, "list index out of range"⟩
    | op :: _ =>
      if cmpAllowed op then
        match rvs with
        | [] => Except.error ⟨.indexError, "list index out of range"⟩
        | rv :: _ => pyCmp op lv rv
      else Except.error ⟨.valueError, "Comparison operator not allowed: " ++ cmpOpName op⟩
  | .call f args =>
    match f with
    | .name fn =>
      if fn = "" then Except.error ⟨.valueError, "Function not allowed: " ++ fn⟩
      else
        match FUNCS fn with
        | some impl => do
          let vs ← visitList ctx args
          impl vs
        | Option.none => Except.error ⟨.valueError, "Function not allowed: " ++ fn⟩
    | _ => Except.error ⟨.valueError, "Function not allowed: None"⟩
  | .name x =>
    match lookupVar ctx x with
    | some v => Except.ok v
    | Option.none => Except.error ⟨.valueError, "Unknown variable: " ++ x⟩
  | .const v => Except.ok v
  | .listLit es => do
    let vs ← visitList ctx es
    Except.ok (.list vs)
  | .setLit es => do
    let s ← visitSetList ctx [] es
    Except.ok (.set s)
  | .binOp l op r =>
    match op with
    | .sub => do
      let lv ← visit ctx l
      let rv ← visit ctx r
      let sl ← toSet lv
      let sr ← toSet rv
      Except.ok (.set (setDiff sl sr))
    | _ => Except.error ⟨.valueError, "Binary operation not allowed: " ++ binOpName op⟩
  | .attrAccess v _ => do
    let _ ← visit ctx v
    Except.ok PyVal.none

/-- Evaluate the nodes of a Python list comprehension left to right (the
first exception wins), as `[self.visit(v) for v in ...]` does. -/
def visitList (ctx : Ctx) : List PyExpr → Except PyErr (List PyVal)
  | [] => Except.ok []
  | e :: es => do
    let v ← visit ctx e
    let vs ← visitList ctx es
    Except.ok (v :: vs)

/-- Evaluate the elements of a set literal one at a time, inserting each
into the set as it is produced, as `set(self.visit(e) for e in node.elts)`
consumes its generator: an early unhashable element raises before a later
element is evaluated. -/
def visitSetList (ctx : Ctx) (acc : List PyVal) : List PyExpr → Except PyErr (List PyVal)
  | [] => Except.ok acc
  | e :: es => do
    let v ← visit ctx e
    if hashable v then visitSetList ctx (dedupAdd acc v) es
    else Except.error ⟨.typeError, "unhashable type: " ++ typeName v⟩

end

/-- `SafeEvaluator.visit` at the root node.  `ast.parse(expr, mode='eval')`
yields an `ast.Expression` root; `SafeEvaluator` defines `visit_Module`
(rule_engine.py line 51) but no `visit_Expression`, so the root dispatch
falls back to `NodeVisitor.generic_visit`, which visits the body (letting
its exceptions propagate), discards the body's value and returns `None`. -/
def visitExpression (ctx : Ctx) (body : PyExpr) : Except PyErr PyVal :=
  match visit ctx body with
  | .error e => .error e
  | .ok _ => Except.ok PyVal.none

/-- A condition string, represented by the outcome of `ast.parse(expr,
mode='eval')` on it.  The parser is the Python standard library, external
to the repository: a string either parses to an `ast.Expression` with the
given body, or is rejected with a `SyntaxError` whose `str` is the given
message. -/
inductive CondString where
  | wellFormed (body : PyExpr)
  | malformed (msg : String)

/-- `eval_condition` (rule_engine.py lines 124-152): parse, walk with
`SafeEvaluator`, coerce the result with `bool()`; any exception `e` of
parsing or walking is caught and re-raised as
`ValueError("Rule evaluation failed: " + str(e))`. -/
def eval_condition : CondString → Ctx → Except PyErr Bool
  | .malformed msg, _ => Except.error ⟨.valueError, "Rule evaluation failed: " ++ msg⟩
  | .wellFormed body, ctx =>
    match visitExpression ctx body with
    | .error e => Except.error ⟨.valueError, "Rule evaluation failed: " ++ e.msg⟩
    | .ok v => Except.ok (truthy v)

/-!
## Rules and the orchestrator
-/

/-- A detection rule (the `Rule` dataclass, rule_engine.py lines 13-23). -/
structure Rule where
  name : String
  description : String
  severity : String
  action : String
  condition : CondString
  metadata : List (String × PyVal)
  enabled : Bool := true
  ttl_seconds : Option Int := Option.none

/-- A value of a hit dictionary: rule fields are strings, `metadata` is a
dictionary, `ttl_seconds` is an integer. -/
inductive HitVal where
  | str (s : String)
  | int (n : Int)
  | dict (m : List (String × PyVal))

/-- A hit: the key-value pairs of the dictionary built at rule_engine.py
lines 176-186, in insertion order.  The `ttl_seconds` key is appended only
when `rule.ttl_seconds` is truthy (not `None` and not zero). -/
def mkHit (r : Rule) : List (String × HitVal) :=
  [("rule", .str r.name),
   ("description", .str r.description),
   ("severity", .str r.severity),
   ("action", .str r.action),
   ("metadata", .dict r.metadata)] ++
  (match r.ttl_seconds with
   | some t => if t ≠ 0 then [("ttl_seconds", .int t)] else []
   | Option.none => [])

/-- `evaluate_rules` (rule_engine.py lines 155-196): walk the rule list in
order, skip disabled rules, append a hit when `eval_condition` returns a
truthy result, and swallow (log-and-continue) any exception a rule
raises. -/
def evaluate_rules (event : Ctx) : List Rule → List (List (String × HitVal))
  | [] => []
  | r :: rs =>
    if r.enabled then
      match eval_condition r.condition event with
      | .ok true => mkHit r :: evaluate_rules event rs
      | _ => evaluate_rules event rs
    else evaluate_rules event rs

/-- Whether a rule is enabled and its condition evaluates to a truthy
result — the spec's description of which rules produce hits. -/
def ruleMatches (event : Ctx) (r : Rule) : Bool :=
  r.enabled &&
    (match eval_condition r.condition event with
     | .ok true => true
     | _ => false)

/-- The ordered hit sequence as the spec words it: one hit, in rule-list
order, for every enabled rule whose condition evaluates to true. -/
def specHits (event : Ctx) (rules : List Rule) : List (List (String × HitVal)) :=
  (rules.filter (ruleMatches event)).map mkHit

/-!
## Helper lemmas
-/

/-- `eval_condition` can only return `false` or raise: the root produced by
`ast.parse(mode='eval')` is an `ast.Expression`, which has no visitor
method, so the body's value is discarded, `generic_visit` returns `None`,
and `bool(None)` is `False`. -/
theorem eval_condition_ne_ok_true (cs : CondString) (ctx : Ctx) :
    eval_condition cs ctx ≠ Except.ok true := by
  cases cs with
  | malformed msg => simp [eval_condition]
  | wellFormed body =>
    simp only [eval_condition, visitExpression]
    cases h : visit ctx body with
    | error e => simp
    | ok v => simp [truthy]

/-- The orchestrator refines the spec's description: the hits are exactly
the hits of the enabled rules whose condition evaluates to true, in
rule-list order. -/
theorem evaluate_rules_eq_specHits (ev : Ctx) (rules : List Rule) :
    evaluate_rules ev rules = specHits ev rules := by
  induction rules with
  | nil => rfl
  | cons r rs ih =>
    by_cases he : r.enabled
    · cases hc : eval_condition r.condition ev with
      | error e =>
        simp [evaluate_rules, specHits, ruleMatches, he, hc, List.filter_cons, ih]
      | ok b =>
        cases b
        · simp [evaluate_rules, specHits, ruleMatches, he, hc, List.filter_cons, ih]
        · simp [evaluate_rules, specHits, ruleMatches, he, hc, List.filter_cons, ih]
    · simp [evaluate_rules, specHits, ruleMatches, he, List.filter_cons, ih]

/-- No rule ever matches, because `eval_condition` never returns `true`. -/
theorem ruleMatches_eq_false (ev : Ctx) (r : Rule) : ruleMatches ev r = false := by
  unfold ruleMatches
  cases hc : eval_condition r.condition ev with
  | error e => simp
  | ok b =>
    cases b
    · simp
    · exact absurd hc (eval_condition_ne_ok_true r.condition ev)

/-- Inserting a rule whose evaluation raises leaves the orchestrator's
output unchanged. -/
theorem evaluate_rules_insert_failing (ev : Ctx) (l1 l2 : List Rule) (r : Rule)
    (err : PyErr) (hc : eval_condition r.condition ev = .error err) :
    evaluate_rules ev (l1 ++ r :: l2) = evaluate_rules ev (l1 ++ l2) := by
  induction l1 with
  | nil =>
    simp only [List.nil_append]
    by_cases he : r.enabled
    · simp [evaluate_rules, he, hc]
    · simp [evaluate_rules, he]
  | cons q l1 ih =>
    by_cases he : q.enabled
    · cases hq : eval_condition q.condition ev with
      | error e => simp [evaluate_rules, he, hq, ih]
      | ok b => cases b <;> simp [evaluate_rules, he, hq, ih]
    · simp [evaluate_rules, he, ih]

/-!
## The claims
-/

/-- C1: the whitelist is not sound.  The condition `x.y` (attribute access,
a construct outside the eight whitelisted node kinds) does not fail with
`UnsupportedOperation` in any context: with `x` bound, evaluation silently
succeeds and returns `False` (the `ast.Attribute` node has no visitor
method, so `generic_visit` discards the whole access); with `x` unbound it
fails, but with the unknown-variable error, not an unsupported-operation
one. -/
theorem C1_attr_access_escapes_whitelist :
    eval_condition (.wellFormed (.attrAccess (.name "x") "y")) [("x", .num 1)] =
      Except.ok false ∧
    eval_condition (.wellFormed (.attrAccess (.name "x") "y")) [] =
      Except.error ⟨.valueError, "Rule evaluation failed: Unknown variable: x"⟩ :=
  ⟨rfl, rfl⟩

/-- C2: no condition ever evaluates to `true`.  Whenever the body of a
parsed condition evaluates without raising, its value is discarded by the
generic fallback at the `ast.Expression` root and `eval_condition` returns
`False`; consequently `eval_condition` never returns `true` and
`evaluate_rules` never produces a hit. -/
theorem C2_no_condition_ever_true :
    (∀ (ctx : Ctx) (body : PyExpr) (v : PyVal), visit ctx body = .ok v →
      eval_condition (.wellFormed body) ctx = Except.ok false) ∧
    (∀ (cs : CondString) (ctx : Ctx), eval_condition cs ctx ≠ Except.ok true) ∧
    (∀ (ev : Ctx) (rules : List Rule), evaluate_rules ev rules = []) := by
  refine ⟨?_, eval_condition_ne_ok_true, ?_⟩
  · intro ctx body v h
    simp [eval_condition, visitExpression, h, truthy]
  · intro ev rules
    rw [evaluate_rules_eq_specHits]
    unfold specHits
    have : rules.filter (ruleMatches ev) = [] := by
      apply List.filter_eq_nil_iff.mpr
      intro r _
      simp [ruleMatches_eq_false]
    rw [this]
    rfl

/-- Witness for C2 at concrete inputs: a condition whose body evaluates to
`True` still yields `False`, and a rule list with an always-`True`
condition produces no hits. -/
theorem C2_no_condition_ever_true_witness :
    eval_condition (.wellFormed (.const (.bool true))) [] = Except.ok false ∧
    eval_condition (.wellFormed (.const (.bool true))) [] ≠ Except.ok true ∧
    evaluate_rules []
      [⟨"r", "d", "high", "deny", .wellFormed (.const (.bool true)), [], true, some 300⟩] = [] :=
  ⟨C2_no_condition_ever_true.1 [] (.const (.bool true)) (.bool true) rfl,
   C2_no_condition_ever_true.2.1 (.wellFormed (.const (.bool true))) [],
   C2_no_condition_ever_true.2.2 [] _⟩

/-- C3: the spec's first example scenario.  Evaluating
`unique_ips > 5 and in_set(region, ['EU','US'])` against
`{unique_ips: 7, region: "EU"}`: the body does evaluate to `True` under the
`SafeEvaluator` visitors, but `eval_condition` returns `False`, because the
`ast.Expression` root discards the body's value — the code contradicts the
documented behavior. -/
theorem C3_example_scenario_evaluates_false :
    visit [("unique_ips", .num 7), ("region", .str "EU")]
      (.boolOp .and
        [.compare (.name "unique_ips") [.gt] [.const (.num 5)],
         .call (.name "in_set")
           [.name "region", .listLit [.const (.str "EU"), .const (.str "US")]]]) =
      Except.ok (.bool true) ∧
    eval_condition
      (.wellFormed (.boolOp .and
        [.compare (.name "unique_ips") [.gt] [.const (.num 5)],
         .call (.name "in_set")
           [.name "region", .listLit [.const (.str "EU"), .const (.str "US")]]]))
      [("unique_ips", .num 7), ("region", .str "EU")] = Except.ok false :=
  ⟨rfl, rfl⟩

/-- C4: per-rule isolation and ordering.  `evaluate_rules` always returns
(it catches every per-rule exception), its output is exactly one hit, in
rule-list order, for every enabled rule whose condition evaluates to true,
and a rule whose condition raises is excluded without affecting the other
rules. -/
theorem C4_per_rule_isolation :
    (∀ (ev : Ctx) (rules : List Rule), evaluate_rules ev rules = specHits ev rules) ∧
    (∀ (ev : Ctx) (l1 l2 : List Rule) (r : Rule) (err : PyErr),
      eval_condition r.condition ev = .error err →
      evaluate_rules ev (l1 ++ r :: l2) = evaluate_rules ev (l1 ++ l2)) :=
  ⟨evaluate_rules_eq_specHits, evaluate_rules_insert_failing⟩

/-- Witness for C4: inserting a rule with an unparseable condition into a
rule list leaves the result unchanged. -/
theorem C4_per_rule_isolation_witness :
    evaluate_rules []
      ([⟨"good", "d", "low", "allow", .wellFormed (.const (.bool true)), [], true, Option.none⟩] ++
        (⟨"bad", "d", "low", "deny", .malformed "boom", [], true, Option.none⟩ : Rule) ::
        []) =
    evaluate_rules []
      ([⟨"good", "d", "low", "allow", .wellFormed (.const (.bool true)), [], true, Option.none⟩] ++
        []) :=
  C4_per_rule_isolation.2 [] _ [] _ ⟨.valueError, "Rule evaluation failed: boom"⟩ rfl

/-- C5: no short-circuiting in `visit_BoolOp`.  Every operand is evaluated
before the results are combined: an `or` whose first operand is truthy
still raises the second operand's error (which `eval_condition` wraps into
its `ValueError`), and an `and` whose first operand is falsy still raises
the second operand's error. -/
theorem C5_boolop_no_short_circuit :
    (∀ (ctx : Ctx) (e1 e2 : PyExpr) (v1 : PyVal) (err : PyErr),
      visit ctx e1 = .ok v1 → truthy v1 = true → visit ctx e2 = .error err →
      visit ctx (.boolOp .or [e1, e2]) = .error err ∧
      eval_condition (.wellFormed (.boolOp .or [e1, e2])) ctx =
        .error ⟨.valueError, "Rule evaluation failed: " ++ err.msg⟩) ∧
    (∀ (ctx : Ctx) (e1 e2 : PyExpr) (v1 : PyVal) (err : PyErr),
      visit ctx e1 = .ok v1 → truthy v1 = false → visit ctx e2 = .error err →
      visit ctx (.boolOp .and [e1, e2]) = .error err) := by
  constructor
  · intro ctx e1 e2 v1 err h1 ht h2
    have hv : visit ctx (.boolOp .or [e1, e2]) = .error err := by
      simp only [visit, visitList, h1, h2]
      rfl
    exact ⟨hv, by simp [eval_condition, visitExpression, hv]⟩
  · intro ctx e1 e2 v1 err h1 ht h2
    simp only [visit, visitList, h1, h2]
    rfl

/-- Witness for C5: `True or m` and `False and m` with `m` unbound both
raise the unknown-variable error. -/
theorem C5_boolop_no_short_circuit_witness :
    (visit [] (.boolOp .or [.const (.bool true), .name "m"]) =
      .error ⟨.valueError, "Unknown variable: m"⟩ ∧
     eval_condition (.wellFormed (.boolOp .or [.const (.bool true), .name "m"])) [] =
      .error ⟨.valueError, "Rule evaluation failed: " ++ "Unknown variable: m"⟩) ∧
    visit [] (.boolOp .and [.const (.bool false), .name "m"]) =
      .error ⟨.valueError, "Unknown variable: m"⟩ :=
  ⟨C5_boolop_no_short_circuit.1 [] (.const (.bool true)) (.name "m") (.bool true)
      ⟨.valueError, "Unknown variable: m"⟩ rfl rfl rfl,
   C5_boolop_no_short_circuit.2 [] (.const (.bool false)) (.name "m") (.bool false)
      ⟨.valueError, "Unknown variable: m"⟩ rfl rfl rfl⟩

/-- C6: `jaccard_distance` converts both arguments to sets and returns
`1 - (|a∩b| / denom)` with `denom = |a∪b|` when nonzero and `1` otherwise;
`jaccard_distance([], [])` is exactly `1` (not an error), and
`jaccard_distance(["a","b","c"], ["b","c","d"])`, called through the
evaluator, is exactly `1/2`. -/
theorem C6_jaccard_distance_formula :
    (∀ (a b : PyVal) (sa sb : List PyVal), toSet a = .ok sa → toSet b = .ok sb →
      jaccard_distance [a, b] =
        .ok (.num (1 - (((setInter sa sb).length : ℚ) /
          (if (setUnion sa sb).length = 0 then (1 : ℚ)
           else ((setUnion sa sb).length : ℚ)))))) ∧
    jaccard_distance [.list [], .list []] = .ok (.num 1) ∧
    visit [] (.call (.name "jaccard_distance")
      [.listLit [.const (.str "a"), .const (.str "b"), .const (.str "c")],
       .listLit [.const (.str "b"), .const (.str "c"), .const (.str "d")]]) =
      .ok (.num (1 / 2)) := by
  refine ⟨?_, ?_, ?_⟩
  · intro a b sa sb ha hb
    simp only [jaccard_distance, ha, hb]
    rfl
  · norm_num [jaccard_distance, toSet, toSetElems, setInter, setUnion]
  · have h : visit [] (.call (.name "jaccard_distance")
        [.listLit [.const (.str "a"), .const (.str "b"), .const (.str "c")],
         .listLit [.const (.str "b"), .const (.str "c"), .const (.str "d")]]) =
        .ok (.num (1 - (2 : ℚ) / 4)) := rfl
    rw [h]
    norm_num

/-- Witness for C6 at a concrete input with a nonempty intersection
pattern: `jaccard_distance(["x"], [])`. -/
theorem C6_jaccard_distance_formula_witness :
    jaccard_distance [.list [.str "x"], .list []] =
      .ok (.num (1 - (((setInter [.str "x"] []).length : ℚ) /
        (if (setUnion [.str "x"] []).length = 0 then (1 : ℚ)
         else ((setUnion [.str "x"] []).length : ℚ))))) :=
  C6_jaccard_distance_formula.1 (.list [.str "x"]) (.list []) [.str "x"] [] rfl rfl

/-- C7: a disabled rule is skipped before its condition is compiled or
evaluated: removing it from the rule list leaves the orchestrator's output
unchanged, whatever its condition is, so it contributes neither a hit nor
an error. -/
theorem C7_disabled_rule_never_contributes (ev : Ctx) (l1 l2 : List Rule) (r : Rule)
    (h : r.enabled = false) :
    evaluate_rules ev (l1 ++ r :: l2) = evaluate_rules ev (l1 ++ l2) := by
  induction l1 with
  | nil => simp [evaluate_rules, h]
  | cons q l1 ih =>
    by_cases he : q.enabled
    · cases hq : eval_condition q.condition ev with
      | error e => simp [evaluate_rules, he, hq, ih]
      | ok b => cases b <;> simp [evaluate_rules, he, hq, ih]
    · simp [evaluate_rules, he, ih]

/-- Witness for C7: a disabled rule with an unparseable condition changes
nothing. -/
theorem C7_disabled_rule_never_contributes_witness :
    evaluate_rules []
      ([] ++ (⟨"off", "d", "low", "deny", .malformed "junk", [], false, some 300⟩ : Rule) :: []) =
    evaluate_rules [] ([] ++ []) :=
  C7_disabled_rule_never_contributes [] [] []
    ⟨"off", "d", "low", "deny", .malformed "junk", [], false, some 300⟩ rfl

/-- C8: hit shape and TTL propagation.  A hit carries the rule's name
(under the key `rule`), description, severity, action and metadata; it
carries `ttl_seconds` with exactly the rule's value when `ttl_seconds` is a
positive integer, and omits the `ttl_seconds` key entirely when the rule
has none; and every hit `evaluate_rules` emits is the hit of an enabled
rule of the list whose condition evaluated to true. -/
theorem C8_hit_fields_and_ttl :
    (∀ r : Rule,
      (mkHit r).lookup "rule" = some (.str r.name) ∧
      (mkHit r).lookup "description" = some (.str r.description) ∧
      (mkHit r).lookup "severity" = some (.str r.severity) ∧
      (mkHit r).lookup "action" = some (.str r.action) ∧
      (mkHit r).lookup "metadata" = some (.dict r.metadata) ∧
      (∀ t : Int, r.ttl_seconds = some t → 0 < t →
        (mkHit r).lookup "ttl_seconds" = some (.int t)) ∧
      (r.ttl_seconds = Option.none → (mkHit r).lookup "ttl_seconds" = Option.none)) ∧
    (∀ (ev : Ctx) (rules : List Rule) (h : List (String × HitVal)),
      h ∈ evaluate_rules ev rules →
      ∃ r ∈ rules, r.enabled = true ∧ eval_condition r.condition ev = .ok true ∧
        h = mkHit r) := by
  constructor
  · intro r
    refine ⟨?_, ?_, ?_, ?_, ?_, ?_, ?_⟩
    · simp [mkHit, List.lookup]
    · simp [mkHit, List.lookup]
    · simp [mkHit, List.lookup]
    · simp [mkHit, List.lookup]
    · simp [mkHit, List.lookup]
    · intro t ht hpos
      have hnz : t ≠ 0 := by omega
      simp [mkHit, List.lookup, ht, hnz]
    · intro ht
      simp [mkHit, List.lookup, ht]
  · intro ev rules h hmem
    rw [evaluate_rules_eq_specHits] at hmem
    unfold specHits at hmem
    obtain ⟨r, hr, rfl⟩ := List.mem_map.mp hmem
    obtain ⟨hrin, hm⟩ := List.mem_filter.mp hr
    unfold ruleMatches at hm
    obtain ⟨he, hmatch⟩ := (Bool.and_eq_true _ _).mp hm
    refine ⟨r, hrin, he, ?_, rfl⟩
    cases hc : eval_condition r.condition ev with
    | error e => rw [hc] at hmatch; simp at hmatch
    | ok b =>
      cases b
      · rw [hc] at hmatch; simp at hmatch
      · rfl

/-- Witness for C8: a rule with `ttl_seconds = 300` yields a hit carrying
`ttl_seconds = 300`, and a rule without `ttl_seconds` yields a hit without
the key. -/
theorem C8_hit_fields_and_ttl_witness :
    (mkHit ⟨"r1", "d", "high", "deny", .wellFormed (.const (.bool true)),
        [("k", .num 1)], true, some 300⟩).lookup "ttl_seconds" = some (.int 300) ∧
    (mkHit ⟨"r2", "d", "low", "allow", .wellFormed (.const (.bool true)),
        [], true, Option.none⟩).lookup "ttl_seconds" = Option.none ∧
    (mkHit ⟨"r1", "d", "high", "deny", .wellFormed (.const (.bool true)),
        [("k", .num 1)], true, some 300⟩).lookup "rule" = some (.str "r1") :=
  ⟨(C8_hit_fields_and_ttl.1 _).2.2.2.2.2.1 300 rfl (by decide),
   (C8_hit_fields_and_ttl.1 _).2.2.2.2.2.2 rfl,
   (C8_hit_fields_and_ttl.1 _).1⟩

/-- C9 counterexample: a malformed condition does not surface a
`SyntaxError` to the caller of `eval_condition` — the `except` clause
re-raises it as a `ValueError`, the same exception class used for the
unsupported-operation and unknown-variable failures, so the Syntax kind is
not distinct at the exception-class level. -/
theorem C9_syntax_error_not_surfaced :
    eval_condition (.malformed "invalid syntax (<unknown>, line 1)") [] =
      .error ⟨.valueError, "Rule evaluation failed: invalid syntax (<unknown>, line 1)"⟩ ∧
    PyExcType.valueError ≠ PyExcType.synError :=
  ⟨rfl, by decide⟩

/-- C9 amended: for every condition string that is not parseable as a
single expression, `eval_condition` raises a `ValueError` whose message is
`"Rule evaluation failed: "` followed by the syntax error's message; the
Syntax kind is distinguishable from the other kinds only through the
message, not through the exception class. -/
theorem C9_wrapped_syntax_error (msg : String) (ctx : Ctx) :
    eval_condition (.malformed msg) ctx =
      .error ⟨.valueError, "Rule evaluation failed: " ++ msg⟩ := rfl

/-- C10: chained-comparison truncation.  `visit_Compare` evaluates the left
operand and every comparator (so a later comparator's error propagates),
but applies only the first operator to the left operand and the first
comparator, ignoring the remaining operators and comparator values. -/
theorem C10_chained_comparison_truncated :
    (∀ (ctx : Ctx) (l c1 c2 : PyExpr) (op1 op2 : PyCmpOp) (vl v1 v2 : PyVal),
      visit ctx l = .ok vl → visit ctx c1 = .ok v1 → visit ctx c2 = .ok v2 →
      cmpAllowed op1 = true →
      visit ctx (.compare l [op1, op2] [c1, c2]) = pyCmp op1 vl v1) ∧
    (∀ (ctx : Ctx) (l c1 c2 : PyExpr) (op1 op2 : PyCmpOp) (vl v1 : PyVal) (err : PyErr),
      visit ctx l = .ok vl → visit ctx c1 = .ok v1 → visit ctx c2 = .error err →
      visit ctx (.compare l [op1, op2] [c1, c2]) = .error err) := by
  constructor
  · intro ctx l c1 c2 op1 op2 vl v1 v2 hl h1 h2 hop
    simp only [visit, visitList, hl, h1, h2, hop]
    rfl
  · intro ctx l c1 c2 op1 op2 vl v1 err hl h1 h2
    simp only [visit, visitList, hl, h1, h2]
    rfl

/-- Witness for C10: `5 > 3 > 10` evaluates to `True` (Python's chained
reading would be `False`; only `5 > 3` is applied), and `1 < 2 < zz` with
`zz` unbound raises even though the truncated result would not need the
second comparator. -/
theorem C10_chained_comparison_truncated_witness :
    visit [] (.compare (.const (.num 5)) [.gt, .gt]
      [.const (.num 3), .const (.num 10)]) = Except.ok (.bool true) ∧
    visit [] (.compare (.const (.num 1)) [.lt, .lt]
      [.const (.num 2), .name "zz"]) =
      .error ⟨.valueError, "Unknown variable: zz"⟩ :=
  ⟨(C10_chained_comparison_truncated.1 [] (.const (.num 5)) (.const (.num 3))
      (.const (.num 10)) .gt .gt (.num 5) (.num 3) (.num 10) rfl rfl rfl rfl).trans rfl,
   C10_chained_comparison_truncated.2 [] (.const (.num 1)) (.const (.num 2))
      (.name "zz") .lt .lt (.num 1) (.num 2)
      ⟨.valueError, "Unknown variable: zz"⟩ rfl rfl rfl⟩

end RuleEngine
